import Mathlib

/-
Verification of the dual-memory buffer core of src/gpu_utils/cuda_utils.cuh:
CudaGlobalPtr (dual host/device buffer with per-side ownership flags),
IndexedDataArrayMask (job partition descriptor), IndexedDataArray (six
parallel buffers with child-view slicing) and ProjectionParams (growable
per-class sampling table).

Modelling choices:
  * Pointers are abstract element addresses (Nat), with 0 playing the role
    of the null pointer; pointer arithmetic on elements becomes Nat addition.
  * Host and device memory contents are a separate state (GpuMem), a total
    map from addresses to values; cudaMemcpy becomes a region overwrite.
  * Allocation draws fresh addresses from a counter state (AllocSt).
  * Freeing is observable: teardown operations return the list of free
    events (side + address) they emit, so ownership claims can be checked.
  * std::vector members of ProjectionParams become Lean lists; the element
    type of the angle vectors is a type parameter A.
-/

/-- Free events emitted by buffer teardown: freeing the device side or the
host side at a given element address. -/
inductive FreeEvent where
  | device (addr : Nat)
  | host (addr : Nat)
deriving DecidableEq, Repr

/-- Control state of the template class CudaGlobalPtr of
src/gpu_utils/cuda_utils.cuh: the advisory size, the host and device
pointers (element addresses, 0 = null) and the two ownership flags. Memory
contents are modelled separately by GpuMem. -/
structure CudaGlobalPtr where
  size : Nat
  h_ptr : Nat
  d_ptr : Nat
  h_do_free : Bool
  d_do_free : Bool
deriving DecidableEq, Repr

/-- Allocator state: the next fresh host and device addresses. Starting the
counters above 0 keeps 0 free to act as the null pointer. -/
structure AllocSt where
  hNext : Nat
  dNext : Nat
deriving DecidableEq, Repr

/-- Host and device memories: total maps from element addresses to values of
the element type T. -/
structure GpuMem (T : Type) where
  host : Nat → T
  dev : Nat → T

/-- Copy n elements starting at srcBase in src over dst starting at dstBase;
this is cudaMemcpy restated in element units. -/
def cpRegion {T : Type} (src dst : Nat → T) (srcBase dstBase n : Nat) : Nat → T :=
  fun a => if dstBase ≤ a ∧ a < dstBase + n then src (srcBase + (a - dstBase)) else dst a

namespace CudaGlobalPtr

/-- Default constructor CudaGlobalPtr(): size 0, null pointers, no side owned. -/
def mkEmpty : CudaGlobalPtr :=
  { size := 0, h_ptr := 0, d_ptr := 0, h_do_free := false, d_do_free := false }

/-- Constructor CudaGlobalPtr(h_start, size): an externally supplied host
pointer, null device pointer, neither side owned. -/
def ofHost (h_start n : Nat) : CudaGlobalPtr :=
  { size := n, h_ptr := h_start, d_ptr := 0, h_do_free := false, d_do_free := false }

/-- Constructor CudaGlobalPtr(h_start, d_start, size): externally supplied
host and device pointers, neither side owned. -/
def ofHostDevice (h_start d_start n : Nat) : CudaGlobalPtr :=
  { size := n, h_ptr := h_start, d_ptr := d_start, h_do_free := false, d_do_free := false }

/-- host_alloc(): sets h_do_free to true and installs a fresh host block of
the current size (h_do_free = true; h_ptr = new T[size]). -/
def host_alloc (b : CudaGlobalPtr) (s : AllocSt) : CudaGlobalPtr × AllocSt :=
  ({ b with h_do_free := true, h_ptr := s.hNext }, { s with hNext := s.hNext + b.size })

/-- device_alloc(): sets d_do_free to true and installs a fresh device block
of the current size (d_do_free = true; cudaMalloc of size elements). -/
def device_alloc (b : CudaGlobalPtr) (s : AllocSt) : CudaGlobalPtr × AllocSt :=
  ({ b with d_do_free := true, d_ptr := s.dNext }, { s with dNext := s.dNext + b.size })

/-- device_alloc(newSize): size = newSize, then device_alloc(). -/
def device_alloc_sized (b : CudaGlobalPtr) (newSize : Nat) (s : AllocSt) :
    CudaGlobalPtr × AllocSt :=
  device_alloc { b with size := newSize } s

/-- cp_to_device(): copies size elements from the host pointer to the device
pointer (cudaCpyHostToDevice(h_ptr, d_ptr, size)). -/
def cp_to_device {T : Type} (b : CudaGlobalPtr) (m : GpuMem T) : GpuMem T :=
  { m with dev := cpRegion m.host m.dev b.h_ptr b.d_ptr b.size }

/-- cp_to_device(hostPtr): installs hostPtr as the host pointer (the source
assigns h_ptr = hostPtr and leaves h_do_free untouched), then cp_to_device(). -/
def cp_to_device_ptr {T : Type} (b : CudaGlobalPtr) (hostPtr : Nat) (m : GpuMem T) :
    CudaGlobalPtr × GpuMem T :=
  let b1 := { b with h_ptr := hostPtr }
  (b1, cp_to_device b1 m)

/-- cp_to_host(): copies size elements from the device pointer back to the
host pointer (cudaCpyDeviceToHost(d_ptr, h_ptr, size)). -/
def cp_to_host {T : Type} (b : CudaGlobalPtr) (m : GpuMem T) : GpuMem T :=
  { m with host := cpRegion m.dev m.host b.d_ptr b.h_ptr b.size }

/-- free_device(): d_do_free = false; cudaFree(d_ptr); d_ptr = 0. The
cudaFree is NOT guarded by d_do_free in the source, so a device free event is
emitted unconditionally. -/
def free_device (b : CudaGlobalPtr) : CudaGlobalPtr × List FreeEvent :=
  ({ b with d_do_free := false, d_ptr := 0 }, [FreeEvent.device b.d_ptr])

/-- free_host(): h_do_free = false; delete[] h_ptr; h_ptr = 0. The delete is
NOT guarded by h_do_free in the source, so a host free event is emitted
unconditionally. -/
def free_host (b : CudaGlobalPtr) : CudaGlobalPtr × List FreeEvent :=
  ({ b with h_do_free := false, h_ptr := 0 }, [FreeEvent.host b.h_ptr])

/-- free(): free_device() followed by free_host(). -/
def free (b : CudaGlobalPtr) : CudaGlobalPtr × List FreeEvent :=
  let (b1, e1) := free_device b
  let (b2, e2) := free_host b1
  (b2, e1 ++ e2)

/-- Destructor: if (d_do_free) free_device(); if (h_do_free) free_host().
Returns the free events emitted, sequencing the two guarded calls. -/
def destruct (b : CudaGlobalPtr) : List FreeEvent :=
  if b.d_do_free then
    let (b1, e1) := free_device b
    if b1.h_do_free then e1 ++ (free_host b1).2 else e1
  else
    if b.h_do_free then (free_host b).2 else []

end CudaGlobalPtr

/-- IndexedDataArrayMask: the two job-descriptor buffers and the slice
bookkeeping fields of the partition mask. -/
structure IndexedDataArrayMask where
  jobOrigin : CudaGlobalPtr
  jobExtent : CudaGlobalPtr
  firstPos : Nat
  lastPos : Nat
  weightNum : Nat
  jobNum : Nat
deriving DecidableEq, Repr

namespace IndexedDataArrayMask

/-- Default constructor IndexedDataArrayMask(): value-initialized members. -/
def mkEmpty : IndexedDataArrayMask :=
  { jobOrigin := CudaGlobalPtr.mkEmpty, jobExtent := CudaGlobalPtr.mkEmpty,
    firstPos := 0, lastPos := 0, weightNum := 0, jobNum := 0 }

/-- setNumberOfJobs(newSize): jobNum = newSize; jobOrigin.size = newSize;
jobExtent.size = newSize. The source performs no allocation here. -/
def setNumberOfJobs (mask : IndexedDataArrayMask) (newSize : Nat) : IndexedDataArrayMask :=
  { mask with jobNum := newSize,
              jobOrigin := { mask.jobOrigin with size := newSize },
              jobExtent := { mask.jobExtent with size := newSize } }

/-- setNumberOfWeights(newSize): weightNum = newSize. -/
def setNumberOfWeights (mask : IndexedDataArrayMask) (newSize : Nat) : IndexedDataArrayMask :=
  { mask with weightNum := newSize }

end IndexedDataArrayMask

/-- A buffer provides host storage exactly when its host pointer is non-null:
this is what it means for an allocated (or externally installed) host-side
sequence to exist behind the buffer. -/
def hasHostStorage (b : CudaGlobalPtr) : Prop := b.h_ptr ≠ 0

/-- IndexedDataArray: the weight buffer and the five parallel index buffers.
The element types (FLOAT vs long unsigned) do not appear because buffer
control state is untyped in this model. -/
structure IndexedDataArray where
  weights : CudaGlobalPtr
  rot_id : CudaGlobalPtr
  rot_idx : CudaGlobalPtr
  trans_idx : CudaGlobalPtr
  ihidden_overs : CudaGlobalPtr
  class_id : CudaGlobalPtr
deriving DecidableEq, Repr

namespace IndexedDataArray

/-- Child-view constructor IndexedDataArray(parent, mask): each of the six
buffers is constructed from the parent's pointers offset by mask.firstPos
with size mask.weightNum via the two-pointer constructor; the constructor
body then assigns false to every d_do_free and h_do_free (already false from
that constructor). -/
def childView (parent : IndexedDataArray) (mask : IndexedDataArrayMask) : IndexedDataArray :=
  { weights := CudaGlobalPtr.ofHostDevice (parent.weights.h_ptr + mask.firstPos)
      (parent.weights.d_ptr + mask.firstPos) mask.weightNum,
    rot_id := CudaGlobalPtr.ofHostDevice (parent.rot_id.h_ptr + mask.firstPos)
      (parent.rot_id.d_ptr + mask.firstPos) mask.weightNum,
    rot_idx := CudaGlobalPtr.ofHostDevice (parent.rot_idx.h_ptr + mask.firstPos)
      (parent.rot_idx.d_ptr + mask.firstPos) mask.weightNum,
    trans_idx := CudaGlobalPtr.ofHostDevice (parent.trans_idx.h_ptr + mask.firstPos)
      (parent.trans_idx.d_ptr + mask.firstPos) mask.weightNum,
    ihidden_overs := CudaGlobalPtr.ofHostDevice (parent.ihidden_overs.h_ptr + mask.firstPos)
      (parent.ihidden_overs.d_ptr + mask.firstPos) mask.weightNum,
    class_id := CudaGlobalPtr.ofHostDevice (parent.class_id.h_ptr + mask.firstPos)
      (parent.class_id.d_ptr + mask.firstPos) mask.weightNum }

/-- setDataSize(newSize): assigns newSize to the size field of each of the
six parallel buffers. -/
def setDataSize (a : IndexedDataArray) (newSize : Nat) : IndexedDataArray :=
  { weights := { a.weights with size := newSize },
    rot_id := { a.rot_id with size := newSize },
    rot_idx := { a.rot_idx with size := newSize },
    trans_idx := { a.trans_idx with size := newSize },
    ihidden_overs := { a.ihidden_overs with size := newSize },
    class_id := { a.class_id with size := newSize } }

/-- dual_alloc_all(): host_alloc() on all six buffers, then device_alloc()
on all six, threading the allocator state in source order. -/
def dual_alloc_all (a : IndexedDataArray) (s0 : AllocSt) : IndexedDataArray × AllocSt :=
  let (w1, s1) := a.weights.host_alloc s0
  let (r1, s2) := a.rot_id.host_alloc s1
  let (x1, s3) := a.rot_idx.host_alloc s2
  let (t1, s4) := a.trans_idx.host_alloc s3
  let (i1, s5) := a.ihidden_overs.host_alloc s4
  let (c1, s6) := a.class_id.host_alloc s5
  let (w2, s7) := w1.device_alloc s6
  let (r2, s8) := r1.device_alloc s7
  let (x2, s9) := x1.device_alloc s8
  let (t2, s10) := t1.device_alloc s9
  let (i2, s11) := i1.device_alloc s10
  let (c2, s12) := c1.device_alloc s11
  ({ weights := w2, rot_id := r2, rot_idx := x2, trans_idx := t2,
     ihidden_overs := i2, class_id := c2 }, s12)

end IndexedDataArray

/-- The uniform-length invariant: all six parallel buffers carry the same
size. -/
def uniformSize (a : IndexedDataArray) : Prop :=
  a.rot_id.size = a.weights.size ∧ a.rot_idx.size = a.weights.size ∧
  a.trans_idx.size = a.weights.size ∧ a.ihidden_overs.size = a.weights.size ∧
  a.class_id.size = a.weights.size

/-- Child buffers alias the parent at offset off with length n and own
neither side. -/
def isView (child parent : CudaGlobalPtr) (off n : Nat) : Prop :=
  child.h_ptr = parent.h_ptr + off ∧ child.d_ptr = parent.d_ptr + off ∧
  child.size = n ∧ child.h_do_free = false ∧ child.d_do_free = false

/-- ProjectionParams: the growable per-class sampling table. The std::vector
members become lists; the double-valued angle vectors take their elements
from a type parameter A. -/
structure ProjectionParams (A : Type) where
  orientation_num : List Nat
  orientationNumAllClasses : Nat
  rots : List A
  tilts : List A
  psis : List A
  iorientclasses : List Nat
  iover_rots : List Nat
  class_entries : List Nat
  class_idx : List Nat
deriving DecidableEq, Repr

namespace ProjectionParams

/-- Default constructor ProjectionParams(): all vectors empty,
orientationNumAllClasses = 0. -/
def mkEmpty (A : Type) : ProjectionParams A :=
  { rots := [], tilts := [], psis := [], iorientclasses := [], iover_rots := [],
    class_entries := [], class_idx := [], orientation_num := [],
    orientationNumAllClasses := 0 }

/-- Constructor ProjectionParams(classes): class_entries, class_idx and
orientation_num are value-initialized to classes zeros, then class_idx[0]
and class_entries[0] are assigned 0. -/
def mkClasses (A : Type) (classes : Nat) : ProjectionParams A :=
  { rots := [], tilts := [], psis := [], iorientclasses := [], iover_rots := [],
    class_entries := (List.replicate classes 0).set 0 0,
    class_idx := (List.replicate classes 0).set 0 0,
    orientation_num := List.replicate classes 0,
    orientationNumAllClasses := 0 }

/-- Slice constructor ProjectionParams(parent, start, stop): the five flat
vectors are built from iterator ranges [start, stop) of the parent, which
std::vector copies by value; orientation_num becomes a vector of one zero,
class_entries the one-element vector [stop - start], class_idx the
one-element vector [0]. The source initializer list omits
orientationNumAllClasses (indeterminate in C++); it is pinned to 0 here,
and no claim is settled against that field of a slice. -/
def slice {A : Type} (parent : ProjectionParams A) (start stop : Nat) : ProjectionParams A :=
  { rots := (parent.rots.drop start).take (stop - start),
    tilts := (parent.tilts.drop start).take (stop - start),
    psis := (parent.psis.drop start).take (stop - start),
    iorientclasses := (parent.iorientclasses.drop start).take (stop - start),
    iover_rots := (parent.iover_rots.drop start).take (stop - start),
    orientation_num := List.replicate 1 0,
    class_entries := List.replicate 1 (stop - start),
    class_idx := List.replicate 1 0,
    orientationNumAllClasses := 0 }

/-- pushBackAll(iclass, rot, tilt, psi, iorientclasses, iover_rots):
class_entries[iclass]++ followed by one push_back on each of the five flat
vectors. -/
def pushBackAll {A : Type} (p : ProjectionParams A) (iclass : Nat)
    (NEWrot NEWtilt NEWpsi : A) (NEWiorientclasses NEWiover_rots : Nat) :
    ProjectionParams A :=
  { p with
    class_entries := p.class_entries.set iclass (p.class_entries.getD iclass 0 + 1),
    rots := p.rots ++ [NEWrot],
    tilts := p.tilts ++ [NEWtilt],
    psis := p.psis ++ [NEWpsi],
    iorientclasses := p.iorientclasses ++ [NEWiorientclasses],
    iover_rots := p.iover_rots ++ [NEWiover_rots] }

end ProjectionParams

/-- One pushBackAll call: the class argument, the three angles and the two
auxiliary indices. -/
structure PPCall (A : Type) where
  iclass : Nat
  rot : A
  tilt : A
  psi : A
  iorientclass : Nat
  iover_rot : Nat
deriving DecidableEq, Repr

/-- Apply a list of pushBackAll calls in order. -/
def applyCalls {A : Type} : ProjectionParams A → List (PPCall A) → ProjectionParams A
  | p, [] => p
  | p, x :: cs =>
      applyCalls (p.pushBackAll x.iclass x.rot x.tilt x.psi x.iorientclass x.iover_rot) cs

/-- Number of calls in the list whose class argument is c. -/
def countClass {A : Type} (c : Nat) (cs : List (PPCall A)) : Nat :=
  cs.countP (fun x => x.iclass == c)

/-- A concrete non-owning buffer shaped like a child view: non-null aliasing
pointers, both ownership flags false. -/
def viewBufEx : CudaGlobalPtr :=
  { size := 4, h_ptr := 3, d_ptr := 5, h_do_free := false, d_do_free := false }

/-- A concrete buffer that owns its host side. -/
def ownBufEx : CudaGlobalPtr :=
  { size := 2, h_ptr := 1, d_ptr := 9, h_do_free := true, d_do_free := false }

/-- A concrete allocator state. -/
def sEx : AllocSt := { hNext := 10, dNext := 20 }

/-- A concrete memory over Nat elements with distinguishable host contents. -/
def mEx : GpuMem Nat := { host := fun a => a + 100, dev := fun _ => 0 }

/-- A concrete parent IndexedDataArray of length 10 on both sides. -/
def arrEx : IndexedDataArray :=
  { weights := { size := 10, h_ptr := 1, d_ptr := 2, h_do_free := true, d_do_free := true },
    rot_id := { size := 10, h_ptr := 11, d_ptr := 12, h_do_free := true, d_do_free := true },
    rot_idx := { size := 10, h_ptr := 21, d_ptr := 22, h_do_free := true, d_do_free := true },
    trans_idx := { size := 10, h_ptr := 31, d_ptr := 32, h_do_free := true, d_do_free := true },
    ihidden_overs := { size := 10, h_ptr := 41, d_ptr := 42, h_do_free := true, d_do_free := true },
    class_id := { size := 10, h_ptr := 51, d_ptr := 52, h_do_free := true, d_do_free := true } }

/-- A concrete mask selecting firstPos = 3, weightNum = 4 out of arrEx. -/
def maskEx : IndexedDataArrayMask :=
  { jobOrigin := CudaGlobalPtr.mkEmpty, jobExtent := CudaGlobalPtr.mkEmpty,
    firstPos := 3, lastPos := 7, weightNum := 4, jobNum := 0 }

/-- A concrete sampling table with five entries over two classes. -/
def ppEx : ProjectionParams Int :=
  { rots := [1, 2, 3, 4, 5], tilts := [11, 12, 13, 14, 15], psis := [21, 22, 23, 24, 25],
    iorientclasses := [31, 32, 33, 34, 35], iover_rots := [41, 42, 43, 44, 45],
    class_entries := [3, 2], class_idx := [0, 3], orientation_num := [3, 2],
    orientationNumAllClasses := 5 }

/-- The concrete call sequence of the spec scenario: classes 0,1,0,0,1. -/
def csEx : List (PPCall Int) :=
  [⟨0, 1, 2, 3, 4, 5⟩, ⟨1, 6, 7, 8, 9, 10⟩, ⟨0, 11, 12, 13, 14, 15⟩,
   ⟨0, 16, 17, 18, 19, 20⟩, ⟨1, 21, 22, 23, 24, 25⟩]

/-- Reading an address inside the destination range of a region copy yields
the corresponding source element. -/
theorem cpRegion_mem {T : Type} (src dst : Nat → T) (sb db n a : Nat)
    (h1 : db ≤ a) (h2 : a < db + n) :
    cpRegion src dst sb db n a = src (sb + (a - db)) := by
  simp [cpRegion, h1, h2]

/-- Dropping then taking inside the first summand of an append ignores the
second summand. -/
theorem take_drop_append {α : Type} (l e : List α) (s n : Nat) (h : s + n ≤ l.length) :
    ((l ++ e).drop s).take n = (l.drop s).take n := by
  rw [List.drop_append_of_le_length (by omega)]
  rw [List.take_append_of_le_length (by rw [List.length_drop]; omega)]

/-- Writing 0 at position 0 of a zero vector changes nothing. -/
theorem set_zero_replicate (n : Nat) :
    (List.replicate n (0 : Nat)).set 0 0 = List.replicate n 0 := by
  cases n <;> simp [List.replicate]

/-- Effect of a call list on everything except class_entries contents: the
five flat vectors gain the per-call elements at the end, the class
descriptors and the total counter are untouched, and the class_entries
length is preserved. -/
theorem applyCalls_flat {A : Type} (cs : List (PPCall A)) (p : ProjectionParams A) :
    (applyCalls p cs).rots = p.rots ++ cs.map PPCall.rot ∧
    (applyCalls p cs).tilts = p.tilts ++ cs.map PPCall.tilt ∧
    (applyCalls p cs).psis = p.psis ++ cs.map PPCall.psi ∧
    (applyCalls p cs).iorientclasses = p.iorientclasses ++ cs.map PPCall.iorientclass ∧
    (applyCalls p cs).iover_rots = p.iover_rots ++ cs.map PPCall.iover_rot ∧
    (applyCalls p cs).class_idx = p.class_idx ∧
    (applyCalls p cs).orientation_num = p.orientation_num ∧
    (applyCalls p cs).orientationNumAllClasses = p.orientationNumAllClasses ∧
    (applyCalls p cs).class_entries.length = p.class_entries.length := by
  induction cs generalizing p with
  | nil => simp [applyCalls]
  | cons x cs ih =>
    have h := ih (p.pushBackAll x.iclass x.rot x.tilt x.psi x.iorientclass x.iover_rot)
    simpa [applyCalls, ProjectionParams.pushBackAll, List.append_assoc] using h

/-- Effect of a call list on class_entries: position c grows by the number
of calls targeting class c, provided every call's class is in range. -/
theorem applyCalls_entries {A : Type} (cs : List (PPCall A)) (p : ProjectionParams A) (c : Nat)
    (hall : ∀ x ∈ cs, x.iclass < p.class_entries.length) :
    (applyCalls p cs).class_entries[c]? =
      p.class_entries[c]?.map (fun v => v + countClass c cs) := by
  induction cs generalizing p with
  | nil =>
    cases hq : p.class_entries[c]? <;> simp [applyCalls, countClass, hq]
  | cons x cs ih =>
    have hx : x.iclass < p.class_entries.length := hall x (List.mem_cons_self x cs)
    have h := ih (p.pushBackAll x.iclass x.rot x.tilt x.psi x.iorientclass x.iover_rot)
      (by intro y hy
          simpa [ProjectionParams.pushBackAll] using hall y (List.mem_cons_of_mem x hy))
    rw [show applyCalls p (x :: cs) =
        applyCalls (p.pushBackAll x.iclass x.rot x.tilt x.psi x.iorientclass x.iover_rot) cs
      from rfl]
    rw [h]
    by_cases hc : x.iclass = c
    · subst hc
      have hcnt : countClass x.iclass (x :: cs) = countClass x.iclass cs + 1 := by
        simp [countClass, List.countP_cons]
      have hv : p.class_entries[x.iclass]? = some (p.class_entries.getD x.iclass 0) := by
        rw [List.getD_eq_getElem?_getD, List.getElem?_eq_getElem hx]
        rfl
      rw [show (p.pushBackAll x.iclass x.rot x.tilt x.psi x.iorientclass x.iover_rot).class_entries
          = p.class_entries.set x.iclass (p.class_entries.getD x.iclass 0 + 1) from rfl]
      rw [List.getElem?_set_self hx, hv, hcnt]
      simp only [Option.map_some']
      congr 1
      omega
    · simp [ProjectionParams.pushBackAll, List.getElem?_set_ne hc, countClass,
        List.countP_cons, hc]

/-- Claim C1 counterexample: free_device on the concrete buffer viewBufEx,
whose device ownership flag d_do_free is false, still emits a device free
event (the cudaFree in the source is unguarded), so free_device does not
release the device side only when d_do_free is true. -/
theorem C1_free_device_nonowner_frees :
    viewBufEx.d_do_free = false ∧
      (((CudaGlobalPtr.free_device viewBufEx).2 = []) = False) :=
  ⟨rfl, eq_false (by decide)⟩

/-- Claim C1 (amended): only the destructor consults the ownership flags — a
buffer owning neither side (as every child-view buffer) is destroyed with no
free event — while the explicit free_device and free_host operations free
their side unconditionally, merely clearing the flag. -/
theorem C1_destruct_releases_only_owned (b : CudaGlobalPtr)
    (hd : b.d_do_free = false) (hh : b.h_do_free = false) :
    b.destruct = [] ∧ (b.free_device).2 = [FreeEvent.device b.d_ptr] ∧
      (b.free_host).2 = [FreeEvent.host b.h_ptr] := by
  refine ⟨?_, rfl, rfl⟩
  simp [CudaGlobalPtr.destruct, hd, hh]

/-- Claim C1 witness: the weights buffer of a concrete child view is
destroyed without freeing anything. -/
theorem C1_destruct_releases_only_owned_w :
    (IndexedDataArray.childView arrEx maskEx).weights.destruct = [] ∧
      ((IndexedDataArray.childView arrEx maskEx).weights.free_device).2 =
        [FreeEvent.device (IndexedDataArray.childView arrEx maskEx).weights.d_ptr] ∧
      ((IndexedDataArray.childView arrEx maskEx).weights.free_host).2 =
        [FreeEvent.host (IndexedDataArray.childView arrEx maskEx).weights.h_ptr] :=
  C1_destruct_releases_only_owned _ rfl rfl

/-- Claim C2: for every parent and mask, the child-view constructor makes
each of the six buffers a view of the corresponding parent buffer: host and
device pointers offset by mask.firstPos, size mask.weightNum, both ownership
flags false. -/
theorem C2_childView_views (parent : IndexedDataArray) (mask : IndexedDataArrayMask) :
    isView (IndexedDataArray.childView parent mask).weights parent.weights
      mask.firstPos mask.weightNum ∧
    isView (IndexedDataArray.childView parent mask).rot_id parent.rot_id
      mask.firstPos mask.weightNum ∧
    isView (IndexedDataArray.childView parent mask).rot_idx parent.rot_idx
      mask.firstPos mask.weightNum ∧
    isView (IndexedDataArray.childView parent mask).trans_idx parent.trans_idx
      mask.firstPos mask.weightNum ∧
    isView (IndexedDataArray.childView parent mask).ihidden_overs parent.ihidden_overs
      mask.firstPos mask.weightNum ∧
    isView (IndexedDataArray.childView parent mask).class_id parent.class_id
      mask.firstPos mask.weightNum :=
  ⟨⟨rfl, rfl, rfl, rfl, rfl⟩, ⟨rfl, rfl, rfl, rfl, rfl⟩, ⟨rfl, rfl, rfl, rfl, rfl⟩,
   ⟨rfl, rfl, rfl, rfl, rfl⟩, ⟨rfl, rfl, rfl, rfl, rfl⟩, ⟨rfl, rfl, rfl, rfl, rfl⟩⟩

/-- Claim C3: device_alloc(); cp_to_device(); cp_to_host() leaves every one
of the first size host elements unchanged: the host-device-host round trip
is the identity on the buffer contents. -/
theorem C3_roundtrip_host_identity {T : Type} (b : CudaGlobalPtr) (s : AllocSt)
    (m : GpuMem T) (i : Nat) (hi : i < b.size) :
    ((b.device_alloc s).1.cp_to_host ((b.device_alloc s).1.cp_to_device m)).host (b.h_ptr + i)
      = m.host (b.h_ptr + i) := by
  show cpRegion (cpRegion m.host m.dev b.h_ptr s.dNext b.size) m.host s.dNext b.h_ptr b.size
      (b.h_ptr + i) = m.host (b.h_ptr + i)
  rw [cpRegion_mem _ _ _ _ _ _ (Nat.le_add_right _ _) (by omega)]
  rw [show b.h_ptr + i - b.h_ptr = i by omega]
  rw [cpRegion_mem _ _ _ _ _ _ (Nat.le_add_right _ _) (by omega)]
  rw [show s.dNext + i - s.dNext = i by omega]

/-- Claim C3 witness: the round trip restores host element 1 of a concrete
buffer of size 2. -/
theorem C3_roundtrip_host_identity_w :
    1 < ownBufEx.size ∧
      ((ownBufEx.device_alloc sEx).1.cp_to_host
          ((ownBufEx.device_alloc sEx).1.cp_to_device mEx)).host (ownBufEx.h_ptr + 1)
        = mEx.host (ownBufEx.h_ptr + 1) :=
  ⟨by decide, C3_roundtrip_host_identity ownBufEx sEx mEx 1 (by decide)⟩

/-- Claim C4 counterexample: on a default-constructed mask, setNumberOfJobs 3
sets jobNum to 3 but leaves both job-descriptor buffers without host storage
(their host pointers stay null): no storage of length 3 comes to exist. -/
theorem C4_setNumberOfJobs_no_alloc :
    (IndexedDataArrayMask.mkEmpty.setNumberOfJobs 3).jobNum = 3 ∧
      (hasHostStorage (IndexedDataArrayMask.mkEmpty.setNumberOfJobs 3).jobOrigin = False) ∧
      (hasHostStorage (IndexedDataArrayMask.mkEmpty.setNumberOfJobs 3).jobExtent = False) := by
  refine ⟨rfl, ?_, ?_⟩ <;>
    simp [hasHostStorage, IndexedDataArrayMask.setNumberOfJobs, IndexedDataArrayMask.mkEmpty,
      CudaGlobalPtr.mkEmpty]

/-- Claim C4 (amended): setNumberOfJobs n records n in jobNum and in the
size fields of both job-descriptor buffers, leaving their pointers and
ownership flags unchanged: the call itself allocates nothing. -/
theorem C4_setNumberOfJobs_sets_sizes (mask : IndexedDataArrayMask) (n : Nat) :
    (mask.setNumberOfJobs n).jobNum = n ∧
    (mask.setNumberOfJobs n).jobOrigin.size = n ∧
    (mask.setNumberOfJobs n).jobExtent.size = n ∧
    (mask.setNumberOfJobs n).jobOrigin.h_ptr = mask.jobOrigin.h_ptr ∧
    (mask.setNumberOfJobs n).jobOrigin.h_do_free = mask.jobOrigin.h_do_free ∧
    (mask.setNumberOfJobs n).jobOrigin.d_ptr = mask.jobOrigin.d_ptr ∧
    (mask.setNumberOfJobs n).jobOrigin.d_do_free = mask.jobOrigin.d_do_free ∧
    (mask.setNumberOfJobs n).jobExtent.h_ptr = mask.jobExtent.h_ptr ∧
    (mask.setNumberOfJobs n).jobExtent.h_do_free = mask.jobExtent.h_do_free ∧
    (mask.setNumberOfJobs n).jobExtent.d_ptr = mask.jobExtent.d_ptr ∧
    (mask.setNumberOfJobs n).jobExtent.d_do_free = mask.jobExtent.d_do_free :=
  ⟨rfl, rfl, rfl, rfl, rfl, rfl, rfl, rfl, rfl, rfl, rfl⟩

/-- Claim C5: starting from ProjectionParams(classes), after any interleaved
list of pushBackAll calls whose class arguments are in range, class_entries
at class c holds exactly the number of calls targeting c, and each of the
five flat sequences has length equal to the number of calls. -/
theorem C5_pushBackAll_counts {A : Type} (classes : Nat) (cs : List (PPCall A)) (c : Nat)
    (hall : ∀ x ∈ cs, x.iclass < classes) (hc : c < classes) :
    (applyCalls (ProjectionParams.mkClasses A classes) cs).class_entries[c]? =
        some (countClass c cs) ∧
    (applyCalls (ProjectionParams.mkClasses A classes) cs).rots.length = cs.length ∧
    (applyCalls (ProjectionParams.mkClasses A classes) cs).tilts.length = cs.length ∧
    (applyCalls (ProjectionParams.mkClasses A classes) cs).psis.length = cs.length ∧
    (applyCalls (ProjectionParams.mkClasses A classes) cs).iorientclasses.length = cs.length ∧
    (applyCalls (ProjectionParams.mkClasses A classes) cs).iover_rots.length = cs.length := by
  have hlen : (ProjectionParams.mkClasses A classes).class_entries.length = classes := by
    simp [ProjectionParams.mkClasses]
  have hent := applyCalls_entries cs (ProjectionParams.mkClasses A classes) c
    (by intro x hx; rw [hlen]; exact hall x hx)
  have h0 : (ProjectionParams.mkClasses A classes).class_entries[c]? = some 0 := by
    simp [ProjectionParams.mkClasses, set_zero_replicate, List.getElem?_replicate, hc]
  obtain ⟨hr, ht, hp, hio, hiv, _, _, _, _⟩ :=
    applyCalls_flat cs (ProjectionParams.mkClasses A classes)
  refine ⟨?_, ?_, ?_, ?_, ?_, ?_⟩
  · rw [hent, h0]
    simp
  · rw [hr]; simp [ProjectionParams.mkClasses]
  · rw [ht]; simp [ProjectionParams.mkClasses]
  · rw [hp]; simp [ProjectionParams.mkClasses]
  · rw [hio]; simp [ProjectionParams.mkClasses]
  · rw [hiv]; simp [ProjectionParams.mkClasses]

/-- Claim C5 witness: the spec scenario — two classes, five calls with class
arguments 0,1,0,0,1 — gives class_entries[0] = 3 and flat length 5. -/
theorem C5_pushBackAll_counts_w :
    (∀ x ∈ csEx, x.iclass < 2) ∧ 0 < 2 ∧
      ((applyCalls (ProjectionParams.mkClasses Int 2) csEx).class_entries[0]? =
          some (countClass 0 csEx) ∧
       (applyCalls (ProjectionParams.mkClasses Int 2) csEx).rots.length = csEx.length ∧
       (applyCalls (ProjectionParams.mkClasses Int 2) csEx).tilts.length = csEx.length ∧
       (applyCalls (ProjectionParams.mkClasses Int 2) csEx).psis.length = csEx.length ∧
       (applyCalls (ProjectionParams.mkClasses Int 2) csEx).iorientclasses.length = csEx.length ∧
       (applyCalls (ProjectionParams.mkClasses Int 2) csEx).iover_rots.length = csEx.length) :=
  ⟨by decide, by decide, C5_pushBackAll_counts 2 csEx 0 (by decide) (by decide)⟩

/-- Claim C6: the class-slice constructor yields flat sequences of length
stop - start whose element i equals the parent's element start + i, and the
new table reports a single synthetic class: orientation_num is the
one-element vector [0], class_entries is [stop - start] and class_idx is
[0]. -/
theorem C6_slice_spec {A : Type} (p : ProjectionParams A) (start stop i : Nat)
    (h1 : start ≤ stop) (h2 : stop ≤ p.rots.length)
    (ht : p.tilts.length = p.rots.length) (hp : p.psis.length = p.rots.length)
    (hio : p.iorientclasses.length = p.rots.length)
    (hiv : p.iover_rots.length = p.rots.length)
    (hi : i < stop - start) :
    (p.slice start stop).rots.length = stop - start ∧
    (p.slice start stop).tilts.length = stop - start ∧
    (p.slice start stop).psis.length = stop - start ∧
    (p.slice start stop).iorientclasses.length = stop - start ∧
    (p.slice start stop).iover_rots.length = stop - start ∧
    (p.slice start stop).rots[i]? = p.rots[start + i]? ∧
    (p.slice start stop).tilts[i]? = p.tilts[start + i]? ∧
    (p.slice start stop).psis[i]? = p.psis[start + i]? ∧
    (p.slice start stop).iorientclasses[i]? = p.iorientclasses[start + i]? ∧
    (p.slice start stop).iover_rots[i]? = p.iover_rots[start + i]? ∧
    (p.slice start stop).orientation_num = [0] ∧
    (p.slice start stop).class_entries = [stop - start] ∧
    (p.slice start stop).class_idx = [0] := by
  refine ⟨?_, ?_, ?_, ?_, ?_, ?_, ?_, ?_, ?_, ?_, rfl, rfl, rfl⟩
  · simp [ProjectionParams.slice]; omega
  · simp [ProjectionParams.slice]; omega
  · simp [ProjectionParams.slice]; omega
  · simp [ProjectionParams.slice]; omega
  · simp [ProjectionParams.slice]; omega
  · simp [ProjectionParams.slice, List.getElem?_take, List.getElem?_drop, hi]
  · simp [ProjectionParams.slice, List.getElem?_take, List.getElem?_drop, hi]
  · simp [ProjectionParams.slice, List.getElem?_take, List.getElem?_drop, hi]
  · simp [ProjectionParams.slice, List.getElem?_take, List.getElem?_drop, hi]
  · simp [ProjectionParams.slice, List.getElem?_take, List.getElem?_drop, hi]

/-- Claim C6 witness: slicing [2, 5) out of the concrete five-entry table
gives a three-entry single-class table matching the parent at offset 2. -/
theorem C6_slice_spec_w :
    2 ≤ 5 ∧ 5 ≤ ppEx.rots.length ∧ ppEx.tilts.length = ppEx.rots.length ∧
      ppEx.psis.length = ppEx.rots.length ∧ ppEx.iorientclasses.length = ppEx.rots.length ∧
      ppEx.iover_rots.length = ppEx.rots.length ∧ 0 < 5 - 2 ∧
      ((ppEx.slice 2 5).rots.length = 5 - 2 ∧
       (ppEx.slice 2 5).tilts.length = 5 - 2 ∧
       (ppEx.slice 2 5).psis.length = 5 - 2 ∧
       (ppEx.slice 2 5).iorientclasses.length = 5 - 2 ∧
       (ppEx.slice 2 5).iover_rots.length = 5 - 2 ∧
       (ppEx.slice 2 5).rots[0]? = ppEx.rots[2 + 0]? ∧
       (ppEx.slice 2 5).tilts[0]? = ppEx.tilts[2 + 0]? ∧
       (ppEx.slice 2 5).psis[0]? = ppEx.psis[2 + 0]? ∧
       (ppEx.slice 2 5).iorientclasses[0]? = ppEx.iorientclasses[2 + 0]? ∧
       (ppEx.slice 2 5).iover_rots[0]? = ppEx.iover_rots[2 + 0]? ∧
       (ppEx.slice 2 5).orientation_num = [0] ∧
       (ppEx.slice 2 5).class_entries = [5 - 2] ∧
       (ppEx.slice 2 5).class_idx = [0]) :=
  ⟨by decide, by decide, by decide, by decide, by decide, by decide, by decide,
   C6_slice_spec ppEx 2 5 0 (by decide) (by decide) (by decide) (by decide) (by decide)
     (by decide) (by decide)⟩

/-- Claim C7: a class slice is a value copy, not an alias: after any further
list of pushBackAll calls on the parent, slicing the original range yields a
table equal in every field to the slice taken before the calls, so parent
mutation never alters the slice; the slice itself is built only from copied
values and never reads the parent again. -/
theorem C7_slice_value_copy {A : Type} (p : ProjectionParams A) (cs : List (PPCall A))
    (start stop : Nat) (h1 : start ≤ stop) (h2 : stop ≤ p.rots.length)
    (ht : p.tilts.length = p.rots.length) (hp : p.psis.length = p.rots.length)
    (hio : p.iorientclasses.length = p.rots.length)
    (hiv : p.iover_rots.length = p.rots.length) :
    (applyCalls p cs).slice start stop = p.slice start stop := by
  obtain ⟨hr, hti, hps, hioc, hivr, _, _, _, _⟩ := applyCalls_flat cs p
  have e1 := take_drop_append p.rots (cs.map PPCall.rot) start (stop - start) (by omega)
  have e2 := take_drop_append p.tilts (cs.map PPCall.tilt) start (stop - start) (by omega)
  have e3 := take_drop_append p.psis (cs.map PPCall.psi) start (stop - start) (by omega)
  have e4 := take_drop_append p.iorientclasses (cs.map PPCall.iorientclass) start (stop - start)
    (by omega)
  have e5 := take_drop_append p.iover_rots (cs.map PPCall.iover_rot) start (stop - start)
    (by omega)
  simp [ProjectionParams.slice, hr, hti, hps, hioc, hivr, e1, e2, e3, e4, e5]

/-- Claim C7 witness: after the five concrete calls on the concrete parent,
the slice [2, 5) is unchanged. -/
theorem C7_slice_value_copy_w :
    2 ≤ 5 ∧ 5 ≤ ppEx.rots.length ∧ ppEx.tilts.length = ppEx.rots.length ∧
      ppEx.psis.length = ppEx.rots.length ∧ ppEx.iorientclasses.length = ppEx.rots.length ∧
      ppEx.iover_rots.length = ppEx.rots.length ∧
      (applyCalls ppEx csEx).slice 2 5 = ppEx.slice 2 5 :=
  ⟨by decide, by decide, by decide, by decide, by decide, by decide,
   C7_slice_value_copy ppEx csEx 2 5 (by decide) (by decide) (by decide) (by decide)
     (by decide) (by decide)⟩

/-- Claim C8 counterexample: on the concrete buffer ownBufEx, which owns its
host side (h_do_free = true), cp_to_device(hostPtr) installs the new pointer
but leaves h_do_free = true, so after the call the host ownership flag does
not indicate that the buffer does not own hostSource. -/
theorem C8_cp_to_device_ptr_keeps_flag :
    ownBufEx.h_do_free = true ∧
      (((ownBufEx.cp_to_device_ptr 7 mEx).1.h_do_free = false) = False) :=
  ⟨rfl, eq_false (by decide)⟩

/-- Claim C8 (amended): cp_to_device(hostPtr) installs hostPtr as the host
pointer and leaves h_do_free unchanged — in particular a buffer that did not
own host memory still owns none — and then copies size elements from the
installed host pointer to the device. -/
theorem C8_cp_to_device_ptr_spec {T : Type} (b : CudaGlobalPtr) (hostPtr : Nat)
    (m : GpuMem T) (i : Nat) (hi : i < b.size) :
    (b.cp_to_device_ptr hostPtr m).1.h_ptr = hostPtr ∧
    (b.cp_to_device_ptr hostPtr m).1.h_do_free = b.h_do_free ∧
    (b.cp_to_device_ptr hostPtr m).2.dev (b.d_ptr + i) = m.host (hostPtr + i) := by
  refine ⟨rfl, rfl, ?_⟩
  show cpRegion m.host m.dev hostPtr b.d_ptr b.size (b.d_ptr + i) = m.host (hostPtr + i)
  rw [cpRegion_mem _ _ _ _ _ _ (Nat.le_add_right _ _) (by omega)]
  rw [show b.d_ptr + i - b.d_ptr = i by omega]

/-- Claim C8 witness: on the concrete non-owning buffer viewBufEx (so
h_do_free stays false), cp_to_device(7) installs 7 and device element 2
receives host element 7 + 2. -/
theorem C8_cp_to_device_ptr_spec_w :
    2 < viewBufEx.size ∧
      ((viewBufEx.cp_to_device_ptr 7 mEx).1.h_ptr = 7 ∧
       (viewBufEx.cp_to_device_ptr 7 mEx).1.h_do_free = viewBufEx.h_do_free ∧
       (viewBufEx.cp_to_device_ptr 7 mEx).2.dev (viewBufEx.d_ptr + 2) = mEx.host (7 + 2)) :=
  ⟨by decide, C8_cp_to_device_ptr_spec viewBufEx 7 mEx 2 (by decide)⟩

/-- Claim C9: the six parallel buffers keep identical sizes: setDataSize
establishes the uniform-size invariant, dual_alloc_all changes none of the
six sizes (hence preserves the invariant), and the child view gives every
buffer size mask.weightNum, satisfying it as well. -/
theorem C9_uniform_size (a p : IndexedDataArray) (mask : IndexedDataArrayMask)
    (n : Nat) (s : AllocSt) (h : uniformSize a) :
    uniformSize (a.setDataSize n) ∧
    (a.dual_alloc_all s).1.weights.size = a.weights.size ∧
    (a.dual_alloc_all s).1.rot_id.size = a.rot_id.size ∧
    (a.dual_alloc_all s).1.rot_idx.size = a.rot_idx.size ∧
    (a.dual_alloc_all s).1.trans_idx.size = a.trans_idx.size ∧
    (a.dual_alloc_all s).1.ihidden_overs.size = a.ihidden_overs.size ∧
    (a.dual_alloc_all s).1.class_id.size = a.class_id.size ∧
    uniformSize (a.dual_alloc_all s).1 ∧
    uniformSize (IndexedDataArray.childView p mask) := by
  refine ⟨⟨rfl, rfl, rfl, rfl, rfl⟩, rfl, rfl, rfl, rfl, rfl, rfl, ?_,
    ⟨rfl, rfl, rfl, rfl, rfl⟩⟩
  exact h

/-- Claim C9 witness: the three operations instantiated on concrete data. -/
theorem C9_uniform_size_w :
    uniformSize arrEx ∧
      (uniformSize (arrEx.setDataSize 6) ∧
       (arrEx.dual_alloc_all sEx).1.weights.size = arrEx.weights.size ∧
       (arrEx.dual_alloc_all sEx).1.rot_id.size = arrEx.rot_id.size ∧
       (arrEx.dual_alloc_all sEx).1.rot_idx.size = arrEx.rot_idx.size ∧
       (arrEx.dual_alloc_all sEx).1.trans_idx.size = arrEx.trans_idx.size ∧
       (arrEx.dual_alloc_all sEx).1.ihidden_overs.size = arrEx.ihidden_overs.size ∧
       (arrEx.dual_alloc_all sEx).1.class_id.size = arrEx.class_id.size ∧
       uniformSize (arrEx.dual_alloc_all sEx).1 ∧
       uniformSize (IndexedDataArray.childView arrEx maskEx)) :=
  ⟨⟨rfl, rfl, rfl, rfl, rfl⟩,
   C9_uniform_size arrEx arrEx maskEx 6 sEx ⟨rfl, rfl, rfl, rfl, rfl⟩⟩

/-- Claim C10: pushBackAll increments class_entries at iclass by one and
appends one element to each of the five flat sequences; class_idx,
orientation_num, orientationNumAllClasses, the class_entries length and
every other class entry are unchanged. -/
theorem C10_pushBackAll_frame {A : Type} (p : ProjectionParams A) (iclass : Nat)
    (r t ps : A) (a b c : Nat) (hi : iclass < p.class_entries.length) (hc : c ≠ iclass) :
    (p.pushBackAll iclass r t ps a b).class_entries[iclass]? =
        some (p.class_entries.getD iclass 0 + 1) ∧
    (p.pushBackAll iclass r t ps a b).class_entries[c]? = p.class_entries[c]? ∧
    (p.pushBackAll iclass r t ps a b).class_entries.length = p.class_entries.length ∧
    (p.pushBackAll iclass r t ps a b).rots = p.rots ++ [r] ∧
    (p.pushBackAll iclass r t ps a b).tilts = p.tilts ++ [t] ∧
    (p.pushBackAll iclass r t ps a b).psis = p.psis ++ [ps] ∧
    (p.pushBackAll iclass r t ps a b).iorientclasses = p.iorientclasses ++ [a] ∧
    (p.pushBackAll iclass r t ps a b).iover_rots = p.iover_rots ++ [b] ∧
    (p.pushBackAll iclass r t ps a b).class_idx = p.class_idx ∧
    (p.pushBackAll iclass r t ps a b).orientation_num = p.orientation_num ∧
    (p.pushBackAll iclass r t ps a b).orientationNumAllClasses = p.orientationNumAllClasses := by
  refine ⟨?_, ?_, ?_, rfl, rfl, rfl, rfl, rfl, rfl, rfl, rfl⟩
  · exact List.getElem?_set_self hi
  · exact List.getElem?_set_ne (Ne.symm hc)
  · exact List.length_set p.class_entries iclass (p.class_entries.getD iclass 0 + 1)

/-- Claim C10 witness: one concrete call with class 1 on the concrete table,
checked against the untouched class 0. -/
theorem C10_pushBackAll_frame_w :
    1 < ppEx.class_entries.length ∧ (0 : Nat) ≠ 1 ∧
      ((ppEx.pushBackAll 1 51 52 53 54 55).class_entries[1]? =
          some (ppEx.class_entries.getD 1 0 + 1) ∧
       (ppEx.pushBackAll 1 51 52 53 54 55).class_entries[0]? = ppEx.class_entries[0]? ∧
       (ppEx.pushBackAll 1 51 52 53 54 55).class_entries.length = ppEx.class_entries.length ∧
       (ppEx.pushBackAll 1 51 52 53 54 55).rots = ppEx.rots ++ [51] ∧
       (ppEx.pushBackAll 1 51 52 53 54 55).tilts = ppEx.tilts ++ [52] ∧
       (ppEx.pushBackAll 1 51 52 53 54 55).psis = ppEx.psis ++ [53] ∧
       (ppEx.pushBackAll 1 51 52 53 54 55).iorientclasses = ppEx.iorientclasses ++ [54] ∧
       (ppEx.pushBackAll 1 51 52 53 54 55).iover_rots = ppEx.iover_rots ++ [55] ∧
       (ppEx.pushBackAll 1 51 52 53 54 55).class_idx = ppEx.class_idx ∧
       (ppEx.pushBackAll 1 51 52 53 54 55).orientation_num = ppEx.orientation_num ∧
       (ppEx.pushBackAll 1 51 52 53 54 55).orientationNumAllClasses =
         ppEx.orientationNumAllClasses) :=
  ⟨by decide, by decide, C10_pushBackAll_frame ppEx 1 51 52 53 54 55 0 (by decide) (by decide)⟩
